import Mathlib

/-!
Shallow embedding of `rmqtt/src/node.rs` (MQTT broker node management core)
and proofs about it.

Modelling conventions:
* Rust `f32` values (load averages, CPU-load percentages, thresholds) are
  modelled as rationals `ℚ`.  Comparisons coincide with the `f32` ones; the
  `f32` sums of `NodeInfo::add`, where rounding is observable, are modelled
  by `f32add` (the exact sum correctly rounded to the 24-bit-significand
  grid, round-to-nearest ties-to-even).  An `f32` division whose result
  would be non-finite (NaN/±inf, i.e. a zero denominator) is modelled by
  `Option ℚ` returning `none`.
* Rust `u64` fields are modelled as `Nat`, with `+` carried out modulo
  `2 ^ 64` (release-mode wrapping semantics) via `wrap64`.
* Rust `i64` timestamps are modelled as `Int`; `i64` truncating division and
  remainder are `Int.tdiv` / `Int.tmod`.
* The atomic cache cells of `Node` (`cached_busy`, `cached_time`) are
  modelled by an explicit `CacheState` record threaded through
  `sys_is_busy`; the atomically stored cpu-load integer is an explicit
  `Int` argument.
* External collaborators (the platform sensor, the health probe) are
  modelled by passing their answers as arguments: the health probe's answer
  is an `Except String Bool` (`running` flag or error message).
-/

namespace Rmqtt

/-- `NodeStatus` from node.rs: `Running(usize) | Stop | Error(String)`. -/
inductive NodeStatus where
  | Running (c : Nat)
  | Stop
  | Error (msg : String)
  deriving DecidableEq, Repr

/-- `NodeStatus::running`: the healthy-unit count, 0 unless `Running`. -/
def NodeStatus.running : NodeStatus → Nat
  | .Running c => c
  | _ => 0

/-- `NodeStatus::is_running`: `matches!(self, NodeStatus::Running(_))`. -/
def NodeStatus.is_running : NodeStatus → Bool
  | .Running _ => true
  | _ => false

/-- `u64` wrapping addition modulo `2 ^ 64` (Rust release semantics for `+=`). -/
def wrap64 (n : Nat) : Nat := n % 18446744073709551616

/-- Binary length of a natural number: 0 for 0, otherwise the number of
binary digits.  Used to locate the leading bit when rounding to the `f32`
grid. -/
def bitlen (n : Nat) : Nat :=
  if n = 0 then 0 else bitlen (n / 2) + 1
decreasing_by exact Nat.div_lt_self (Nat.pos_of_ne_zero (by assumption)) (by norm_num)

/-- The binary exponent of a positive rational: the unique `e` with
`2 ^ e ≤ q < 2 ^ (e + 1)` (junk on non-positive input). -/
def expOf (q : ℚ) : ℤ :=
  let e0 : ℤ := (bitlen q.num.toNat : ℤ) - (bitlen q.den : ℤ)
  if (2 : ℚ) ^ e0 ≤ q then e0 else e0 - 1

/-- Round a rational to the nearest integer, ties to even (the IEEE 754
default rounding of the fractional part). -/
def roundHE (x : ℚ) : ℤ :=
  let n := ⌊x⌋
  if x - n < 1 / 2 then n
  else if (1 : ℚ) / 2 < x - n then n + 1
  else if n % 2 = 0 then n else n + 1

/-- Round a rational to the `f32` value grid (24-bit significands,
`n * 2 ^ k` with `|n| < 2 ^ 24`) by round-to-nearest, ties to even — the
IEEE 754 binary32 rounding of an exact sum, modelled without the exponent
bounds (no overflow to infinity at `2 ^ 128`, no significand loss below the
normal range), which coincides with `f32` arithmetic on the magnitudes the
node snapshots carry. -/
def roundF32 (q : ℚ) : ℚ :=
  if q = 0 then 0
  else
    let e := expOf |q| - 23
    let scaled := |q| / 2 ^ e
    (if q < 0 then -1 else 1) * (roundHE scaled : ℚ) * 2 ^ e

/-- A rational lies on the `f32` value grid: an integer significand below
`2 ^ 24` times a power of two. -/
def isRepF32 (q : ℚ) : Prop :=
  ∃ n : ℤ, ∃ k : ℤ, |n| < 2 ^ 24 ∧ q = (n : ℚ) * 2 ^ k

/-- `f32` addition: the exact sum, correctly rounded (IEEE 754 binary32
`+` away from overflow and subnormal underflow).  This is the `+=` the
source performs on the `f32` load-average fields. -/
def f32add (x y : ℚ) : ℚ := roundF32 (x + y)

/-- `NodeInfo` from node.rs.  `connections: isize` is `Int`; the three load
averages are `f32` modelled as `ℚ`; memory and disk fields are `u64`
modelled as `Nat`; `node_id` (`NodeId`, an unsigned integer id) is `Nat`. -/
structure NodeInfo where
  connections : Int
  boottime : String
  load1 : ℚ
  load5 : ℚ
  load15 : ℚ
  memory_total : Nat
  memory_used : Nat
  memory_free : Nat
  disk_total : Nat
  disk_free : Nat
  node_status : NodeStatus
  node_id : Nat
  node_name : String
  uptime : String
  version : String
  rustc_version : String
  deriving DecidableEq, Repr

/-- `NodeInfo::add`: folds `other` into `self`.  The three `f32` load
fields are summed by rounded `f32` addition, the five `u64` memory/disk
fields by wrapping `u64` addition; `node_status` is combined by the
nine-pairing match from the source, the `usize` count sum of the
both-`Running` arm wrapping at `2 ^ 64` like every other integer sum; every
other field of `self` is left unchanged. -/
def NodeInfo.add (self other : NodeInfo) : NodeInfo :=
  { self with
    load1 := f32add self.load1 other.load1
    load5 := f32add self.load5 other.load5
    load15 := f32add self.load15 other.load15
    memory_total := wrap64 (self.memory_total + other.memory_total)
    memory_used := wrap64 (self.memory_used + other.memory_used)
    memory_free := wrap64 (self.memory_free + other.memory_free)
    disk_total := wrap64 (self.disk_total + other.disk_total)
    disk_free := wrap64 (self.disk_free + other.disk_free)
    node_status :=
      let c :=
        match self.node_status, other.node_status with
        | NodeStatus.Running c1, NodeStatus.Running c2 => wrap64 (c1 + c2)
        | NodeStatus.Running c1, _ => c1
        | _, NodeStatus.Running c2 => c2
        | _, _ => 0
      NodeStatus.Running c }

/-- `BrokerInfo` from node.rs. -/
structure BrokerInfo where
  version : String
  rustc_version : String
  uptime : String
  sysdescr : String
  node_status : NodeStatus
  node_id : Nat
  node_name : String
  datetime : String
  deriving DecidableEq, Repr

/-- The configuration part of `Node` from node.rs: the node id, the two
(already normalized) busy thresholds and the staleness window.  The mutable
atomic cells (`cpuload`, `cached_busy`, `cached_time`) are threaded
explicitly through the functions below; `start_time` is irrelevant to the
modelled operations except through `uptime`, which takes elapsed seconds. -/
structure Node where
  id : Nat
  max_busy_loadavg : ℚ
  max_busy_cpuloadavg : ℚ
  busy_update_interval_ms : Int
  deriving DecidableEq, Repr

/-- `Node::new`: normalizes the configured `max_busy_loadavg` percentage into
an absolute load-average threshold, `configured * cpu_count / 100`, exactly
once at construction.  `cpu_count` (from `num_cpus::get()`) and the interval
in milliseconds (`Duration::as_millis` of `busy_update_interval`) are passed
as arguments since they come from outside the modelled state. -/
def Node.new (id : Nat) (max_busy_loadavg max_busy_cpuloadavg : ℚ)
    (busy_update_interval_ms : Int) (cpu_count : ℚ) : Node :=
  let normalized_loadavg := max_busy_loadavg * cpu_count / 100
  { id := id
    max_busy_loadavg := normalized_loadavg
    max_busy_cpuloadavg := max_busy_cpuloadavg
    busy_update_interval_ms := busy_update_interval_ms }

/-- `Node::cpuload`: the stored hundredths-of-a-percent integer divided by
100, as a percentage in 0.0–100.0. -/
def Node.cpuload (stored : Int) : ℚ := (stored : ℚ) / 100

/-- `Node::_is_busy`, the uncached busy computation: the fresh 1-minute load
average (already defaulted to 0 on sensor failure by the caller-side
`unwrap_or_default`) is compared against the normalized load threshold, and
the last published cpu-load percentage against the cpu threshold. -/
def Node._is_busy (node : Node) (load1 cpuload : ℚ) : Bool :=
  decide (load1 > node.max_busy_loadavg) || decide (cpuload > node.max_busy_cpuloadavg)

/-- The two atomic cache cells of `Node`: `cached_busy` and `cached_time`. -/
structure CacheState where
  cached_busy : Bool
  cached_time : Int
  deriving DecidableEq, Repr

/-- `Node::sys_is_busy`: if `now - cached_time < busy_update_interval` (in
milliseconds) return the cached boolean and leave the cache unchanged;
otherwise recompute via `_is_busy` and store the new boolean and `now`.
Returns the boolean together with the resulting cache state.  `load1` is the
sensor's 1-minute load average and `cpuload_stored` the atomic cpu-load
integer, both read during recomputation. -/
def Node.sys_is_busy (node : Node) (st : CacheState) (cpuload_stored : Int)
    (now : Int) (load1 : ℚ) : Bool × CacheState :=
  if now - st.cached_time < node.busy_update_interval_ms then
    (st.cached_busy, st)
  else
    let busy := node._is_busy load1 (Node.cpuload cpuload_stored)
    (busy, { cached_busy := busy, cached_time := now })

/-- `Node::status`: maps the health probe's answer (`Ok {running}` or `Err e`)
to a `NodeStatus`, never propagating the error. -/
def Node.status (probe : Except String Bool) : NodeStatus :=
  match probe with
  | .ok true => NodeStatus.Running 1
  | .ok false => NodeStatus.Stop
  | .error e => NodeStatus.Error e

/-- One CPU aggregate-counter delta reading (`systemstat::CPULoad`): the
time-in-state fractions over the measurement window, `f32` modelled as `ℚ`. -/
structure CpuLoadAggr where
  user : ℚ
  nice : ℚ
  system : ℚ
  interrupt : ℚ
  idle : ℚ
  deriving DecidableEq, Repr

/-- `f32` division modelled on `ℚ`: a zero denominator makes the result
non-finite (NaN or ±inf), which has no rational value, so it is `none`. -/
def f32Div (a b : ℚ) : Option ℚ := if b = 0 then none else some (a / b)

/-- The scaled cpu-load value computed by `Node::update_cpuload` on a
successful aggregate reading, as the source writes it: `aggregate1` is the
busy time, `aggregate2` the total time; the guard expression
`if aggregate2 <= 0.0 { 1.0 } else { aggregate2 };` is an expression
statement whose value is DISCARDED (`_discarded` below), and the division
then uses the unguarded `aggregate2`.  `none` means the `f32` result is
non-finite (0/0 is NaN). -/
def update_cpuload_value (c : CpuLoadAggr) : Option ℚ :=
  let aggregate1 := c.user + c.nice + c.system + c.interrupt
  let aggregate2 := aggregate1 + c.idle
  let _discarded := if aggregate2 ≤ 0 then (1 : ℚ) else aggregate2
  (f32Div aggregate1 aggregate2).map (fun r => r * 10000)

/-- Modelled from the spec: the GUARDED cpu-load computation the spec
describes for `update_cpuload` (section 4.2: treat a non-positive
`total_time` as 1 before dividing).  This is what the discarded guard in the
source was evidently meant to do; it is not what the source computes. -/
def update_cpuload_value_guarded (c : CpuLoadAggr) : Option ℚ :=
  let aggregate1 := c.user + c.nice + c.system + c.interrupt
  let aggregate2 := aggregate1 + c.idle
  let denom := if aggregate2 ≤ 0 then (1 : ℚ) else aggregate2
  (f32Div aggregate1 denom).map (fun r => r * 10000)

/-- `to_uptime` from node.rs: formats elapsed seconds by successive `i64`
truncating division/remainder by 60, 60, 24.  `Int.tdiv`/`Int.tmod` are
exactly Rust's `/` and `%` on `i64`. -/
def to_uptime (uptime : Int) : String :=
  let uptime_secs := Int.tmod uptime 60
  let uptime1 := Int.tdiv uptime 60
  let uptime_minus := Int.tmod uptime1 60
  let uptime2 := Int.tdiv uptime1 60
  let uptime_hours := Int.tmod uptime2 24
  let uptime_days := Int.tdiv uptime2 24
  toString uptime_days ++ " days " ++ toString uptime_hours ++ " hours, " ++
    toString uptime_minus ++ " minutes, " ++ toString uptime_secs ++ " seconds"

/-- JSON values, the target of serialization (`serde_json::Value`).  Numbers
are modelled as rationals, covering the integers and finite floats the
snapshots contain. -/
inductive Json where
  | null
  | bool (b : Bool)
  | num (q : ℚ)
  | str (s : String)
  | arr (elems : List Json)
  | obj (fields : List (String × Json))

/-- Field lookup in a JSON object (first match wins), `none` on non-objects. -/
def Json.getField : Json → String → Option Json
  | .obj fields, k => lookupField k fields
  | _, _ => none
where
  /-- Associative lookup by field name. -/
  lookupField (k : String) : List (String × Json) → Option Json
    | [] => none
    | (k2, v) :: rest => if k = k2 then some v else lookupField k rest

/-- Reads an integer (`isize`/`i64`) back from a JSON number. -/
def Json.asInt : Json → Option Int
  | .num q => if q.den = 1 then some q.num else none
  | _ => none

/-- Reads an unsigned integer (`u64`/`usize`) back from a JSON number. -/
def Json.asNat : Json → Option Nat
  | .num q => if q.den = 1 ∧ 0 ≤ q.num then some q.num.toNat else none
  | _ => none

/-- Reads a float (`f32`) back from a JSON number. -/
def Json.asRat : Json → Option ℚ
  | .num q => some q
  | _ => none

/-- Reads a string back from a JSON string. -/
def Json.asStr : Json → Option String
  | .str s => some s
  | _ => none

/-- Serde serialization of `NodeStatus` with `rename_all = "lowercase"` and
external enum tagging: `Running(c)` becomes the object with the single
lowercase-tagged field `running`, `Stop` the plain string, `Error(m)` the
object tagged `error`. -/
def NodeStatus.toJson : NodeStatus → Json
  | .Running c => Json.obj [("running", Json.num (c : ℚ))]
  | .Stop => Json.str "stop"
  | .Error m => Json.obj [("error", Json.str m)]

/-- Serde deserialization of `NodeStatus` on the shapes its serialization
produces (lowercase external tags). -/
def NodeStatus.fromJson : Json → Option NodeStatus
  | .str s => if s = "stop" then some NodeStatus.Stop else none
  | .obj [(k, v)] =>
    if k = "running" then (Json.asNat v).map NodeStatus.Running
    else if k = "error" then (Json.asStr v).map NodeStatus.Error
    else none
  | _ => none

/-- Serde serialization of `NodeInfo` (derived `Serialize`): every field
under its declared name, in declaration order. -/
def NodeInfo.toJson (n : NodeInfo) : Json :=
  Json.obj
    [("connections", Json.num (n.connections : ℚ)),
     ("boottime", Json.str n.boottime),
     ("load1", Json.num n.load1),
     ("load5", Json.num n.load5),
     ("load15", Json.num n.load15),
     ("memory_total", Json.num (n.memory_total : ℚ)),
     ("memory_used", Json.num (n.memory_used : ℚ)),
     ("memory_free", Json.num (n.memory_free : ℚ)),
     ("disk_total", Json.num (n.disk_total : ℚ)),
     ("disk_free", Json.num (n.disk_free : ℚ)),
     ("node_status", n.node_status.toJson),
     ("node_id", Json.num (n.node_id : ℚ)),
     ("node_name", Json.str n.node_name),
     ("uptime", Json.str n.uptime),
     ("version", Json.str n.version),
     ("rustc_version", Json.str n.rustc_version)]

/-- Consumes the next field of a serialized object, requiring its declared
name to be `k`, and returns its value and the remaining fields. -/
def takeField (k : String) : List (String × Json) → Option (Json × List (String × Json))
  | [] => none
  | (k2, v) :: rest => if k = k2 then some (v, rest) else none

/-- Serde deserialization of `NodeInfo` (derived `Deserialize`) on the
field-name shape its serialization produces; every field is required and
type-checked, and no extra fields may remain. -/
def NodeInfo.fromJson : Json → Option NodeInfo
  | .obj fs0 =>
    match takeField "connections" fs0 with
    | none => none
    | some r1 =>
    match Json.asInt r1.1 with
    | none => none
    | some connections =>
    match takeField "boottime" r1.2 with
    | none => none
    | some r2 =>
    match Json.asStr r2.1 with
    | none => none
    | some boottime =>
    match takeField "load1" r2.2 with
    | none => none
    | some r3 =>
    match Json.asRat r3.1 with
    | none => none
    | some load1 =>
    match takeField "load5" r3.2 with
    | none => none
    | some r4 =>
    match Json.asRat r4.1 with
    | none => none
    | some load5 =>
    match takeField "load15" r4.2 with
    | none => none
    | some r5 =>
    match Json.asRat r5.1 with
    | none => none
    | some load15 =>
    match takeField "memory_total" r5.2 with
    | none => none
    | some r6 =>
    match Json.asNat r6.1 with
    | none => none
    | some memory_total =>
    match takeField "memory_used" r6.2 with
    | none => none
    | some r7 =>
    match Json.asNat r7.1 with
    | none => none
    | some memory_used =>
    match takeField "memory_free" r7.2 with
    | none => none
    | some r8 =>
    match Json.asNat r8.1 with
    | none => none
    | some memory_free =>
    match takeField "disk_total" r8.2 with
    | none => none
    | some r9 =>
    match Json.asNat r9.1 with
    | none => none
    | some disk_total =>
    match takeField "disk_free" r9.2 with
    | none => none
    | some r10 =>
    match Json.asNat r10.1 with
    | none => none
    | some disk_free =>
    match takeField "node_status" r10.2 with
    | none => none
    | some r11 =>
    match NodeStatus.fromJson r11.1 with
    | none => none
    | some node_status =>
    match takeField "node_id" r11.2 with
    | none => none
    | some r12 =>
    match Json.asNat r12.1 with
    | none => none
    | some node_id =>
    match takeField "node_name" r12.2 with
    | none => none
    | some r13 =>
    match Json.asStr r13.1 with
    | none => none
    | some node_name =>
    match takeField "uptime" r13.2 with
    | none => none
    | some r14 =>
    match Json.asStr r14.1 with
    | none => none
    | some uptime =>
    match takeField "version" r14.2 with
    | none => none
    | some r15 =>
    match Json.asStr r15.1 with
    | none => none
    | some version =>
    match takeField "rustc_version" r15.2 with
    | none => none
    | some r16 =>
    match Json.asStr r16.1 with
    | none => none
    | some rustc_version =>
    match r16.2 with
    | [] => some ⟨connections, boottime, load1, load5, load15, memory_total,
                  memory_used, memory_free, disk_total, disk_free,
                  node_status, node_id, node_name, uptime, version,
                  rustc_version⟩
    | _ => none
  | _ => none

/-- Serde serialization of `BrokerInfo` (derived `Serialize`). -/
def BrokerInfo.toJson (b : BrokerInfo) : Json :=
  Json.obj
    [("version", Json.str b.version),
     ("rustc_version", Json.str b.rustc_version),
     ("uptime", Json.str b.uptime),
     ("sysdescr", Json.str b.sysdescr),
     ("node_status", b.node_status.toJson),
     ("node_id", Json.num (b.node_id : ℚ)),
     ("node_name", Json.str b.node_name),
     ("datetime", Json.str b.datetime)]

/-- Serde deserialization of `BrokerInfo` (derived `Deserialize`) on the
field-name shape its serialization produces. -/
def BrokerInfo.fromJson : Json → Option BrokerInfo
  | .obj fs0 =>
    match takeField "version" fs0 with
    | none => none
    | some r1 =>
    match Json.asStr r1.1 with
    | none => none
    | some version =>
    match takeField "rustc_version" r1.2 with
    | none => none
    | some r2 =>
    match Json.asStr r2.1 with
    | none => none
    | some rustc_version =>
    match takeField "uptime" r2.2 with
    | none => none
    | some r3 =>
    match Json.asStr r3.1 with
    | none => none
    | some uptime =>
    match takeField "sysdescr" r3.2 with
    | none => none
    | some r4 =>
    match Json.asStr r4.1 with
    | none => none
    | some sysdescr =>
    match takeField "node_status" r4.2 with
    | none => none
    | some r5 =>
    match NodeStatus.fromJson r5.1 with
    | none => none
    | some node_status =>
    match takeField "node_id" r5.2 with
    | none => none
    | some r6 =>
    match Json.asNat r6.1 with
    | none => none
    | some node_id =>
    match takeField "node_name" r6.2 with
    | none => none
    | some r7 =>
    match Json.asStr r7.1 with
    | none => none
    | some node_name =>
    match takeField "datetime" r7.2 with
    | none => none
    | some r8 =>
    match Json.asStr r8.1 with
    | none => none
    | some datetime =>
    match r8.2 with
    | [] => some ⟨version, rustc_version, uptime, sysdescr, node_status,
                  node_id, node_name, datetime⟩
    | _ => none
  | _ => none

/-- `BrokerInfo::to_json`, the hand-written monitoring shape from node.rs:
notably it exposes the derived boolean field `running` computed by
`node_status.is_running()` instead of the tagged `node_status`. -/
def BrokerInfo.to_json (b : BrokerInfo) : Json :=
  Json.obj
    [("version", Json.str b.version),
     ("rustc_version", Json.str b.rustc_version),
     ("uptime", Json.str b.uptime),
     ("sysdescr", Json.str b.sysdescr),
     ("running", Json.bool b.node_status.is_running),
     ("node_id", Json.num (b.node_id : ℚ)),
     ("node_name", Json.str b.node_name),
     ("datetime", Json.str b.datetime)]

/-- The tuple of the eight numeric resource fields of a `NodeInfo`, the
components summed by `NodeInfo.add`. -/
def NodeInfo.numerics (n : NodeInfo) : ℚ × ℚ × ℚ × Nat × Nat × Nat × Nat × Nat :=
  (n.load1, n.load5, n.load15, n.memory_total, n.memory_used, n.memory_free,
   n.disk_total, n.disk_free)

/-- `bitlen` of zero is zero. -/
theorem bitlen_zero : bitlen 0 = 0 := by
  rw [bitlen.eq_def]
  norm_num

/-- `bitlen n` is the binary length: `n` lies below `2 ^ bitlen n` and at
or above its half. -/
theorem bitlen_spec : ∀ n : ℕ, 0 < n → n < 2 ^ bitlen n ∧ 2 ^ bitlen n ≤ 2 * n := by
  intro n
  induction n using Nat.strong_induction_on with
  | _ n ih =>
    intro hn
    rw [bitlen.eq_def, if_neg (Nat.pos_iff_ne_zero.mp hn)]
    by_cases h1 : n = 1
    · subst h1
      norm_num [bitlen_zero]
    · have h2 : 2 ≤ n := by omega
      have hlt : n / 2 < n := Nat.div_lt_self hn (by norm_num)
      have hpos : 0 < n / 2 := by omega
      obtain ⟨ha, hb⟩ := ih (n / 2) hlt hpos
      rw [pow_succ]
      omega

/-- `expOf` of a positive rational brackets it between consecutive powers
of two. -/
theorem expOf_spec (q : ℚ) (hq : 0 < q) :
    (2 : ℚ) ^ expOf q ≤ q ∧ q < 2 ^ (expOf q + 1) := by
  have hnum : 0 < q.num := Rat.num_pos.mpr hq
  set a : ℕ := q.num.toNat with ha
  set d : ℕ := q.den with hd
  have hapos : 0 < a := by omega
  have hdpos : 0 < d := q.den_pos
  have hdQ : (0 : ℚ) < (d : ℚ) := by exact_mod_cast hdpos
  have hq_eq : q = (a : ℚ) / (d : ℚ) := by
    have h1 : ((a : ℤ) : ℚ) = (q.num : ℚ) := by
      rw [ha, Int.toNat_of_nonneg hnum.le]
    rw [← Rat.num_div_den q, ← h1, hd]
    push_cast
    ring
  set A : ℕ := bitlen a with hA
  set D : ℕ := bitlen d with hD
  obtain ⟨hA1, hA2⟩ := bitlen_spec a hapos
  obtain ⟨hD1, hD2⟩ := bitlen_spec d hdpos
  have hA1Q : (a : ℚ) < 2 ^ (A : ℤ) := by
    rw [zpow_natCast]
    exact_mod_cast hA1
  have hA2Q : (2 : ℚ) ^ (A : ℤ) ≤ 2 * a := by
    rw [zpow_natCast]
    exact_mod_cast hA2
  have hD1Q : (d : ℚ) < 2 ^ (D : ℤ) := by
    rw [zpow_natCast]
    exact_mod_cast hD1
  have hD2Q : (2 : ℚ) ^ (D : ℤ) ≤ 2 * d := by
    rw [zpow_natCast]
    exact_mod_cast hD2
  have hB2 : (2 : ℚ) ^ ((A : ℤ) - 1) ≤ a := by
    have he : (2 : ℚ) ^ ((A : ℤ) - 1) = 2 ^ (A : ℤ) / 2 := by
      rw [zpow_sub₀ (two_ne_zero), zpow_one]
    rw [he]
    linarith
  have hB4 : (2 : ℚ) ^ ((D : ℤ) - 1) ≤ d := by
    have he : (2 : ℚ) ^ ((D : ℤ) - 1) = 2 ^ (D : ℤ) / 2 := by
      rw [zpow_sub₀ (two_ne_zero), zpow_one]
    rw [he]
    linarith
  set e0 : ℤ := (A : ℤ) - (D : ℤ) with he0
  have hL1 : (2 : ℚ) ^ (e0 - 1) < q := by
    rw [hq_eq, lt_div_iff₀ hdQ]
    calc (2 : ℚ) ^ (e0 - 1) * d < 2 ^ (e0 - 1) * 2 ^ (D : ℤ) := by
          exact mul_lt_mul_of_pos_left hD1Q (zpow_pos (by norm_num) _)
      _ = 2 ^ ((A : ℤ) - 1) := by
          rw [← zpow_add₀ (two_ne_zero)]
          congr 1
          omega
      _ ≤ a := hB2
  have hL2 : q < (2 : ℚ) ^ (e0 + 1) := by
    rw [hq_eq, div_lt_iff₀ hdQ]
    calc (a : ℚ) < 2 ^ (A : ℤ) := hA1Q
      _ = 2 ^ (e0 + 1) * 2 ^ ((D : ℤ) - 1) := by
          rw [← zpow_add₀ (two_ne_zero)]
          congr 1
          omega
      _ ≤ 2 ^ (e0 + 1) * d := by
          exact mul_le_mul_of_nonneg_left hB4 (zpow_pos (by norm_num) _).le
  show (2 : ℚ) ^ expOf q ≤ q ∧ q < 2 ^ (expOf q + 1)
  have hunf : expOf q = if (2 : ℚ) ^ e0 ≤ q then e0 else e0 - 1 := by
    simp only [expOf, he0, ha, hd, hA, hD]
  rw [hunf]
  split_ifs with h
  · exact ⟨h, hL2⟩
  · push_neg at h
    constructor
    · exact hL1.le
    · have he1 : e0 - 1 + 1 = e0 := by ring
      rw [he1]
      exact h

/-- The bracketing property determines `expOf` uniquely. -/
theorem expOf_unique (q : ℚ) (e : ℤ) (h1 : (2 : ℚ) ^ e ≤ q) (h2 : q < 2 ^ (e + 1)) :
    expOf q = e := by
  have hq : 0 < q := lt_of_lt_of_le (zpow_pos (by norm_num) e) h1
  obtain ⟨hs1, hs2⟩ := expOf_spec q hq
  rcases lt_trichotomy (expOf q) e with h | h | h
  · have hc : (2 : ℚ) ^ (expOf q + 1) ≤ 2 ^ e := by
      rw [zpow_le_zpow_iff_right₀ (by norm_num : (1 : ℚ) < 2)]
      omega
    linarith
  · exact h
  · have hc : (2 : ℚ) ^ (e + 1) ≤ 2 ^ expOf q := by
      rw [zpow_le_zpow_iff_right₀ (by norm_num : (1 : ℚ) < 2)]
      omega
    linarith

/-- Rounding an integer to the nearest integer is the identity. -/
theorem roundHE_intCast (z : ℤ) : roundHE (z : ℚ) = z := by
  simp [roundHE]

/-- Correct rounding is exact on the `f32` grid. -/
theorem roundF32_eq_self (q : ℚ) (h : isRepF32 q) : roundF32 q = q := by
  obtain ⟨n, k, hn, rfl⟩ := h
  by_cases h0 : ((n : ℚ) * 2 ^ k) = 0
  · rw [roundF32, if_pos h0]
    exact h0.symm
  · simp only [roundF32, if_neg h0]
    have h2k : (0 : ℚ) < 2 ^ k := zpow_pos (by norm_num) k
    have hn0 : n ≠ 0 := by
      rintro rfl
      simp at h0
    have habs : |(n : ℚ) * 2 ^ k| = (n.natAbs : ℚ) * 2 ^ k := by
      rw [abs_mul, abs_of_pos h2k]
      congr 1
      rw [Int.cast_natAbs, Int.cast_abs]
    set m : ℕ := n.natAbs with hm
    have hm1 : 0 < m := Int.natAbs_pos.mpr hn0
    have hm24 : m < 2 ^ 24 := by
      have hz : (m : ℤ) < 2 ^ 24 := by
        rw [hm, ← Int.abs_eq_natAbs]
        exact hn
      exact_mod_cast hz
    set E : ℤ := expOf |(n : ℚ) * 2 ^ k| with hE
    obtain ⟨hs1, hs2⟩ := expOf_spec _ (abs_pos.mpr h0)
    rw [← hE] at hs1 hs2
    have hEk : E < k + 24 := by
      have hlt : |(n : ℚ) * 2 ^ k| < 2 ^ (k + 24) := by
        rw [habs, zpow_add₀ (two_ne_zero)]
        have hc : (m : ℚ) < 2 ^ (24 : ℤ) := by
          rw [show ((24 : ℤ)) = ((24 : ℕ) : ℤ) from rfl, zpow_natCast]
          exact_mod_cast hm24
        calc (m : ℚ) * 2 ^ k < 2 ^ (24 : ℤ) * 2 ^ k :=
              mul_lt_mul_of_pos_right hc h2k
          _ = 2 ^ k * 2 ^ (24 : ℤ) := by ring
      have hcmp := lt_of_le_of_lt hs1 hlt
      rwa [zpow_lt_zpow_iff_right₀ (by norm_num : (1 : ℚ) < 2)] at hcmp
    have hj : 0 ≤ k + 23 - E := by omega
    have hscaled : |(n : ℚ) * 2 ^ k| / 2 ^ (E - 23) =
        (((m * 2 ^ (k + 23 - E).toNat : ℕ) : ℤ) : ℚ) := by
      rw [habs, mul_div_assoc, ← zpow_sub₀ (two_ne_zero : (2 : ℚ) ≠ 0)]
      have h1 : k - (E - 23) = k + 23 - E := by ring
      rw [h1]
      have h2 : k + 23 - E = ((k + 23 - E).toNat : ℤ) := (Int.toNat_of_nonneg hj).symm
      rw [h2, zpow_natCast]
      push_cast
      rw [Int.toNat_natCast]
    rw [hscaled, roundHE_intCast]
    have hmn : ((m : ℚ)) = |(n : ℚ)| := by
      rw [hm, Int.cast_natAbs, Int.cast_abs]
    have ht : (((k + 23 - E).toNat : ℤ)) = k + 23 - E := Int.toNat_of_nonneg hj
    have hpow : (((m * 2 ^ (k + 23 - E).toNat : ℕ) : ℤ) : ℚ) * 2 ^ (E - 23) =
        |(n : ℚ)| * 2 ^ k := by
      push_cast
      rw [hmn, ← zpow_natCast (2 : ℚ) (k + 23 - E).toNat, ht, mul_assoc,
        ← zpow_add₀ (two_ne_zero : (2 : ℚ) ≠ 0)]
      congr 2
      ring
    rcases lt_trichotomy n 0 with hneg | hzero | hpos
    · have hqneg : (n : ℚ) * 2 ^ k < 0 := by
        apply mul_neg_of_neg_of_pos _ h2k
        exact_mod_cast hneg
      rw [if_pos hqneg, mul_assoc, hpow, abs_of_neg (by exact_mod_cast hneg : ((n : ℚ)) < 0)]
      ring
    · exact absurd hzero hn0
    · have hqpos : (0 : ℚ) < (n : ℚ) * 2 ^ k := by
        apply mul_pos _ h2k
        exact_mod_cast hpos
      rw [if_neg (not_lt.mpr hqpos.le), mul_assoc, hpow,
        abs_of_pos (by exact_mod_cast hpos : (0 : ℚ) < (n : ℚ))]
      ring

/-- `f32` addition is commutative: both orders round the same exact sum. -/
theorem f32add_comm (x y : ℚ) : f32add x y = f32add y x := by
  rw [f32add, f32add, add_comm x y]

/-- `f32` addition is exact when the exact sum lies on the `f32` grid. -/
theorem f32add_eq_add (x y : ℚ) (h : isRepF32 (x + y)) : f32add x y = x + y :=
  roundF32_eq_self (x + y) h

/-- Claim C1: the uncached busy computation returns true iff the 1-minute
load average exceeds the normalized load threshold or the last published
cpu-load percentage exceeds the cpu threshold, for every pair of thresholds
and every pair of inputs. -/
theorem is_busy_iff (node : Node) (load1 cpuload : ℚ) :
    node._is_busy load1 cpuload = true ↔
      load1 > node.max_busy_loadavg ∨ cpuload > node.max_busy_cpuloadavg := by
  simp [Node._is_busy]

/-- Claim C6: `Node::new` stores `configured_percent * core_count / 100` as
the absolute load-average threshold, and for 80 percent on 4 cores the
stored threshold is 3.2 = 16/5. -/
theorem node_new_normalizes (id : Nat) (pct maxc : ℚ) (interval : Int)
    (cores : ℚ) :
    (Node.new id pct maxc interval cores).max_busy_loadavg = pct * cores / 100 ∧
    (Node.new 0 80 90 2000 4).max_busy_loadavg = 16 / 5 := by
  constructor
  · rfl
  · norm_num [Node.new]

/-- Claim C10: `NodeInfo::add` leaves `connections`, `boottime`, `node_id`,
`node_name`, `uptime`, `version` and `rustc_version` of the accumulator
unchanged for every pair of inputs; in particular connection counts are not
summed. -/
theorem nodeinfo_add_frame (a b : NodeInfo) :
    (a.add b).connections = a.connections ∧
    (a.add b).boottime = a.boottime ∧
    (a.add b).node_id = a.node_id ∧
    (a.add b).node_name = a.node_name ∧
    (a.add b).uptime = a.uptime ∧
    (a.add b).version = a.version ∧
    (a.add b).rustc_version = a.rustc_version :=
  ⟨rfl, rfl, rfl, rfl, rfl, rfl, rfl⟩

/-- Claim C2: `NodeInfo::add` sums the eight numeric resource fields
arithmetically (under the side conditions that the u64 sums stay below
`2 ^ 64`, so the wrapping of Rust release-mode `+=` does not fire, and that
each exact `f32` load sum lies on the `f32` grid, so rounding is exact) and
combines `node_status` over all nine variant pairings: both `Running` gives
`Running (c1 + c2)` (again below the `usize` wrap), exactly one `Running c`
gives `Running c`, neither `Running` gives `Running 0`. -/
theorem nodeinfo_add_spec (a b : NodeInfo)
    (h1 : a.memory_total + b.memory_total < 18446744073709551616)
    (h2 : a.memory_used + b.memory_used < 18446744073709551616)
    (h3 : a.memory_free + b.memory_free < 18446744073709551616)
    (h4 : a.disk_total + b.disk_total < 18446744073709551616)
    (h5 : a.disk_free + b.disk_free < 18446744073709551616)
    (hr1 : isRepF32 (a.load1 + b.load1))
    (hr5 : isRepF32 (a.load5 + b.load5))
    (hr15 : isRepF32 (a.load15 + b.load15)) :
    (a.add b).load1 = a.load1 + b.load1 ∧
    (a.add b).load5 = a.load5 + b.load5 ∧
    (a.add b).load15 = a.load15 + b.load15 ∧
    (a.add b).memory_total = a.memory_total + b.memory_total ∧
    (a.add b).memory_used = a.memory_used + b.memory_used ∧
    (a.add b).memory_free = a.memory_free + b.memory_free ∧
    (a.add b).disk_total = a.disk_total + b.disk_total ∧
    (a.add b).disk_free = a.disk_free + b.disk_free ∧
    (∀ c1 c2, a.node_status = NodeStatus.Running c1 →
      b.node_status = NodeStatus.Running c2 →
      c1 + c2 < 18446744073709551616 →
      (a.add b).node_status = NodeStatus.Running (c1 + c2)) ∧
    (∀ c1, a.node_status = NodeStatus.Running c1 →
      b.node_status.is_running = false →
      (a.add b).node_status = NodeStatus.Running c1) ∧
    (∀ c2, a.node_status.is_running = false →
      b.node_status = NodeStatus.Running c2 →
      (a.add b).node_status = NodeStatus.Running c2) ∧
    (a.node_status.is_running = false → b.node_status.is_running = false →
      (a.add b).node_status = NodeStatus.Running 0) := by
  refine ⟨f32add_eq_add _ _ hr1, f32add_eq_add _ _ hr5, f32add_eq_add _ _ hr15,
    Nat.mod_eq_of_lt h1, Nat.mod_eq_of_lt h2,
    Nat.mod_eq_of_lt h3, Nat.mod_eq_of_lt h4, Nat.mod_eq_of_lt h5,
    ?_, ?_, ?_, ?_⟩
  · intro c1 c2 ha hb hlt
    simp [NodeInfo.add, ha, hb, wrap64, Nat.mod_eq_of_lt hlt]
  · intro c1 ha hb
    cases hs : b.node_status <;>
      simp [NodeStatus.is_running, hs] at hb ⊢ <;>
      simp [NodeInfo.add, ha, hs]
  · intro c2 ha hb
    cases hs : a.node_status <;>
      simp [NodeStatus.is_running, hs] at ha ⊢ <;>
      simp [NodeInfo.add, hb, hs]
  · intro ha hb
    cases hsa : a.node_status <;> cases hsb : b.node_status <;>
      simp [NodeStatus.is_running, hsa, hsb] at ha hb ⊢ <;>
      simp [NodeInfo.add, hsa, hsb]

/-- Witness for C2: the concrete aggregation from the spec's example,
`{load1:1, Running 1}` plus `{load1:2, Running 2}`, yields load1 3 and
`Running 3`, via `nodeinfo_add_spec`. -/
theorem nodeinfo_add_spec_witness :
    ((⟨3, "b", 1, 0, 0, 10, 4, 6, 20, 9, NodeStatus.Running 1, 7, "n", "u",
        "v", "r"⟩ : NodeInfo).add
      ⟨4, "b2", 2, 0, 0, 30, 5, 25, 40, 11, NodeStatus.Running 2, 8, "n2",
        "u2", "v2", "r2"⟩).load1 = 3 ∧
    ((⟨3, "b", 1, 0, 0, 10, 4, 6, 20, 9, NodeStatus.Running 1, 7, "n", "u",
        "v", "r"⟩ : NodeInfo).add
      ⟨4, "b2", 2, 0, 0, 30, 5, 25, 40, 11, NodeStatus.Running 2, 8, "n2",
        "u2", "v2", "r2"⟩).node_status = NodeStatus.Running 3 := by
  have h := nodeinfo_add_spec
    ⟨3, "b", 1, 0, 0, 10, 4, 6, 20, 9, NodeStatus.Running 1, 7, "n", "u",
      "v", "r"⟩
    ⟨4, "b2", 2, 0, 0, 30, 5, 25, 40, 11, NodeStatus.Running 2, 8, "n2",
      "u2", "v2", "r2"⟩
    (by norm_num) (by norm_num) (by norm_num) (by norm_num) (by norm_num)
    ⟨3, 0, by norm_num, by norm_num⟩
    ⟨0, 0, by norm_num, by norm_num⟩
    ⟨0, 0, by norm_num, by norm_num⟩
  obtain ⟨hl1, -, -, -, -, -, -, -, hrr, -⟩ := h
  refine ⟨by rw [hl1]; norm_num, hrr 1 2 rfl rfl (by norm_num)⟩

/-- Claim C8, counterexample to associativity of the floating-point
components: folding three snapshots whose `load1` values are 1, `2 ^ -24`
and `2 ^ -24` gives `load1 = 1` when grouped to the left (each addition of
`2 ^ -24` to 1 is rounded away, a tie to the even significand) but
`load1 = 1 + 2 ^ -23` when grouped to the right (the two small values sum
exactly first), so the load fields are not equal regardless of grouping. -/
theorem nodeinfo_add_f32_assoc_counterexample :
    (((⟨0, "", 1, 0, 0, 0, 0, 0, 0, 0, NodeStatus.Stop, 0, "", "", "",
          ""⟩ : NodeInfo).add
        ⟨0, "", 1 / 16777216, 0, 0, 0, 0, 0, 0, 0, NodeStatus.Stop, 0, "",
          "", "", ""⟩).add
      ⟨0, "", 1 / 16777216, 0, 0, 0, 0, 0, 0, 0, NodeStatus.Stop, 0, "",
        "", "", ""⟩).load1 ≠
    ((⟨0, "", 1, 0, 0, 0, 0, 0, 0, 0, NodeStatus.Stop, 0, "", "", "",
        ""⟩ : NodeInfo).add
      ((⟨0, "", 1 / 16777216, 0, 0, 0, 0, 0, 0, 0, NodeStatus.Stop, 0, "",
          "", "", ""⟩ : NodeInfo).add
        ⟨0, "", 1 / 16777216, 0, 0, 0, 0, 0, 0, 0, NodeStatus.Stop, 0, "",
          "", "", ""⟩)).load1 := by
  have e1 : f32add 1 (1 / 16777216) = 1 := by
    have hsum : (1 : ℚ) + 1 / 16777216 = 16777217 / 16777216 := by norm_num
    rw [f32add, hsum]
    have hq0 : (16777217 / 16777216 : ℚ) ≠ 0 := by norm_num
    have habs : |(16777217 / 16777216 : ℚ)| = 16777217 / 16777216 :=
      abs_of_pos (by norm_num)
    have hexp : expOf (16777217 / 16777216 : ℚ) = 0 := by
      apply expOf_unique
      · norm_num
      · norm_num
    have hscaled : (16777217 / 16777216 : ℚ) / 2 ^ ((0 : ℤ) - 23) =
        16777217 / 2 := by norm_num
    have hfloor : ⌊(16777217 / 2 : ℚ)⌋ = 8388608 := by
      rw [Int.floor_eq_iff]
      constructor
      · norm_num
      · norm_num
    have hround : roundHE (16777217 / 2 : ℚ) = 8388608 := by
      simp only [roundHE, hfloor]
      norm_num
    simp only [roundF32, if_neg hq0, habs, hexp, hscaled, hround]
    norm_num
  have e2 : f32add (1 / 16777216) (1 / 16777216) = 1 / 8388608 := by
    have hsum : (1 / 16777216 : ℚ) + 1 / 16777216 = 1 / 8388608 := by
      norm_num
    rw [f32add, hsum]
    exact roundF32_eq_self _ ⟨1, -23, by norm_num, by norm_num⟩
  have e3 : f32add 1 (1 / 8388608) = 8388609 / 8388608 := by
    rw [f32add_eq_add _ _ ⟨8388609, -23, by norm_num, by norm_num⟩]
    norm_num
  show f32add (f32add 1 (1 / 16777216)) (1 / 16777216) ≠
    f32add 1 (f32add (1 / 16777216) (1 / 16777216))
  rw [e1, e2, e1, e3]
  norm_num

/-- Claim C8 (amended): the aggregation is commutative in all eight numeric
components, and associative in the five unsigned-integer memory/disk
components; associativity does not extend to the three `f32` load fields,
where rounding depends on grouping (see the counterexample). -/
theorem nodeinfo_add_comm_int_assoc (a b c : NodeInfo) :
    (a.add b).numerics = (b.add a).numerics ∧
    ((a.add b).add c).memory_total = (a.add (b.add c)).memory_total ∧
    ((a.add b).add c).memory_used = (a.add (b.add c)).memory_used ∧
    ((a.add b).add c).memory_free = (a.add (b.add c)).memory_free ∧
    ((a.add b).add c).disk_total = (a.add (b.add c)).disk_total ∧
    ((a.add b).add c).disk_free = (a.add (b.add c)).disk_free := by
  refine ⟨?_, ?_, ?_, ?_, ?_, ?_⟩
  · unfold NodeInfo.numerics NodeInfo.add wrap64
    simp only [Prod.mk.injEq]
    refine ⟨f32add_comm _ _, f32add_comm _ _, f32add_comm _ _,
      ?_, ?_, ?_, ?_, ?_⟩ <;>
      simp [Nat.add_comm]
  all_goals
    simp [NodeInfo.add, wrap64, Nat.mod_add_mod, Nat.add_mod_mod,
      Nat.add_assoc]

/-- Claim C4: a `sys_is_busy` call with `now - cached_time` below the
staleness window returns the cached boolean and leaves the cache unchanged;
a call at or past the window recomputes via `_is_busy` and stores the new
boolean and `now`; and two calls within the window return the identical
cached value. -/
theorem sys_is_busy_cache (node : Node) (st : CacheState) (stored : Int)
    (now now2 : Int) (load1 load1b : ℚ) :
    (now - st.cached_time < node.busy_update_interval_ms →
      node.sys_is_busy st stored now load1 = (st.cached_busy, st)) ∧
    (node.busy_update_interval_ms ≤ now - st.cached_time →
      node.sys_is_busy st stored now load1 =
        (node._is_busy load1 (Node.cpuload stored),
         ⟨node._is_busy load1 (Node.cpuload stored), now⟩)) ∧
    (now - st.cached_time < node.busy_update_interval_ms →
     now2 - st.cached_time < node.busy_update_interval_ms →
      (node.sys_is_busy st stored now load1).1 =
        (node.sys_is_busy st stored now2 load1b).1) := by
  refine ⟨?_, ?_, ?_⟩
  · intro h
    simp [Node.sys_is_busy, h]
  · intro h
    simp [Node.sys_is_busy, not_lt.mpr h]
  · intro h h2
    simp [Node.sys_is_busy, h, h2]

/-- Witness for C4, via `sys_is_busy_cache` at interval 2000 ms and cache
timestamp 0: a call at t=1000 returns the cached value with the cache left
unchanged, a second call at t=1500 returns the same value, and a call at
t=3000 recomputes and stores the new flag and timestamp. -/
theorem sys_is_busy_cache_witness :
    Node.sys_is_busy ⟨0, 16 / 5, 90, 2000⟩ ⟨true, 0⟩ 0 1000 5 =
      (true, ⟨true, 0⟩) ∧
    (Node.sys_is_busy ⟨0, 16 / 5, 90, 2000⟩ ⟨true, 0⟩ 0 1000 5).1 =
      (Node.sys_is_busy ⟨0, 16 / 5, 90, 2000⟩ ⟨true, 0⟩ 0 1500 7).1 ∧
    Node.sys_is_busy ⟨0, 16 / 5, 90, 2000⟩ ⟨true, 0⟩ 0 3000 5 =
      (Node._is_busy ⟨0, 16 / 5, 90, 2000⟩ 5 (Node.cpuload 0),
       ⟨Node._is_busy ⟨0, 16 / 5, 90, 2000⟩ 5 (Node.cpuload 0), 3000⟩) := by
  have h1000 := sys_is_busy_cache ⟨0, 16 / 5, 90, 2000⟩ ⟨true, 0⟩ 0 1000 1500 5 7
  have h3000 := sys_is_busy_cache ⟨0, 16 / 5, 90, 2000⟩ ⟨true, 0⟩ 0 3000 3000 5 5
  exact ⟨h1000.1 (by norm_num), h1000.2.2 (by norm_num) (by norm_num),
    h3000.2.1 (by norm_num)⟩

/-- Claim C3, the failing input: with every aggregate counter equal to 0
(so `total_time = 0`), the computation `update_cpuload` actually performs
divides by the unguarded zero denominator and its `f32` result is
non-finite (`none`: 0/0 is NaN), while the guarded computation the spec
describes yields a defined 0 percent (scaled: `some 0`).  The guard value
the source computes on a non-positive `total_time` is discarded, so the two
disagree: the code has the bug the spec flags. -/
theorem update_cpuload_guard_discarded :
    update_cpuload_value ⟨0, 0, 0, 0, 0⟩ = none ∧
    update_cpuload_value_guarded ⟨0, 0, 0, 0, 0⟩ = some 0 := by
  constructor
  · norm_num [update_cpuload_value, f32Div]
  · norm_num [update_cpuload_value_guarded, f32Div]

/-- Claim C5: `status` maps a probe answer `running = true` to `Running 1`,
`running = false` to `Stop`, and a probe error `e` to `Error e` (no error
propagation, since `status` is total into `NodeStatus`); and a `BrokerInfo`
whose status came from the probe failing with "database unreachable" has
status `Error "database unreachable"` and serializes the derived `running`
field as `false`. -/
theorem status_maps_probe (e : String) (b : BrokerInfo) :
    Node.status (Except.ok true) = NodeStatus.Running 1 ∧
    Node.status (Except.ok false) = NodeStatus.Stop ∧
    Node.status (Except.error e) = NodeStatus.Error e ∧
    (b.node_status = Node.status (Except.error "database unreachable") →
      b.node_status = NodeStatus.Error "database unreachable" ∧
      b.to_json.getField "running" = some (Json.bool false)) := by
  refine ⟨rfl, rfl, rfl, fun h => ⟨h, ?_⟩⟩
  simp [BrokerInfo.to_json, Json.getField, Json.getField.lookupField, h,
    NodeStatus.is_running, Node.status]

/-- Witness for C5, via `status_maps_probe`: a concrete `BrokerInfo` whose
status is the probe-error mapping serializes `running` as `false`. -/
theorem status_maps_probe_witness :
    (⟨"v", "r", "u", "s", NodeStatus.Error "database unreachable", 0, "n",
       "d"⟩ : BrokerInfo).to_json.getField "running" =
      some (Json.bool false) :=
  ((status_maps_probe "x"
      ⟨"v", "r", "u", "s", NodeStatus.Error "database unreachable", 0, "n",
        "d"⟩).2.2.2 rfl).2

/-- Claim C7: for non-negative elapsed seconds, `to_uptime` renders the
components `s mod 60` seconds, `(s div 60) mod 60` minutes,
`(s div 3600) mod 24` hours and `s div 86400` days (floor division, no
rounding), and `to_uptime 90061` is the spec's example string. -/
theorem to_uptime_spec (s : Int) (h : 0 ≤ s) :
    to_uptime s =
      toString (Int.tdiv s 86400) ++ " days " ++
      toString (Int.tmod (Int.tdiv s 3600) 24) ++ " hours, " ++
      toString (Int.tmod (Int.tdiv s 60) 60) ++ " minutes, " ++
      toString (Int.tmod s 60) ++ " seconds" ∧
    to_uptime 90061 = "1 days 1 hours, 1 minutes, 1 seconds" := by
  refine ⟨?_, by rfl⟩
  obtain ⟨n, rfl⟩ := Int.eq_ofNat_of_zero_le h
  have hd : Int.tdiv (Int.tdiv (Int.tdiv (n : Int) 60) 60) 24 =
      Int.tdiv (n : Int) 86400 := by
    have e1 : Int.tdiv (Int.tdiv (Int.tdiv (n : Int) 60) 60) 24 =
        ((n / 60 / 60 / 24 : Nat) : Int) := rfl
    have e2 : Int.tdiv (n : Int) 86400 = ((n / 86400 : Nat) : Int) := rfl
    rw [e1, e2, Nat.div_div_eq_div_mul, Nat.div_div_eq_div_mul]
  have hh : Int.tmod (Int.tdiv (Int.tdiv (n : Int) 60) 60) 24 =
      Int.tmod (Int.tdiv (n : Int) 3600) 24 := by
    have e1 : Int.tmod (Int.tdiv (Int.tdiv (n : Int) 60) 60) 24 =
        ((n / 60 / 60 % 24 : Nat) : Int) := rfl
    have e2 : Int.tmod (Int.tdiv (n : Int) 3600) 24 =
        ((n / 3600 % 24 : Nat) : Int) := rfl
    rw [e1, e2, Nat.div_div_eq_div_mul]
  simp only [to_uptime]
  rw [hd, hh]

/-- Witness for C7: `to_uptime_spec` applied at 90061 seconds gives the
spec's example rendering. -/
theorem to_uptime_spec_witness :
    to_uptime 90061 = "1 days 1 hours, 1 minutes, 1 seconds" :=
  (to_uptime_spec 90061 (by norm_num)).2

/-- Reading back an integer JSON number recovers the integer. -/
theorem asInt_intCast (c : Int) : Json.asInt (Json.num (c : ℚ)) = some c := by
  simp [Json.asInt]

/-- Reading back an unsigned-integer JSON number recovers the natural. -/
theorem asNat_natCast (n : Nat) : Json.asNat (Json.num (n : ℚ)) = some n := by
  simp [Json.asNat]

/-- Serde round-trip for `NodeStatus` with its lowercase tags. -/
theorem nodestatus_toJson_roundtrip (s : NodeStatus) :
    NodeStatus.fromJson s.toJson = some s := by
  cases s with
  | Running c => simp [NodeStatus.toJson, NodeStatus.fromJson, asNat_natCast]
  | Stop => rfl
  | Error m => simp [NodeStatus.toJson, NodeStatus.fromJson, Json.asStr]

/-- Claim C9: serializing any `NodeInfo` or `BrokerInfo` to its defined
field-name shape (with `node_status` under its lowercase tag) and parsing
it back recovers every field value, the `datetime` string included. -/
theorem serde_roundtrip (n : NodeInfo) (b : BrokerInfo) :
    NodeInfo.fromJson (NodeInfo.toJson n) = some n ∧
    BrokerInfo.fromJson (BrokerInfo.toJson b) = some b := by
  constructor
  · simp [NodeInfo.toJson, NodeInfo.fromJson, takeField, asInt_intCast,
      asNat_natCast, nodestatus_toJson_roundtrip, Json.asStr, Json.asRat]
  · simp [BrokerInfo.toJson, BrokerInfo.fromJson, takeField, asNat_natCast,
      nodestatus_toJson_roundtrip, Json.asStr]

end Rmqtt
